import Mathlib

/-!
Verification development for the node-drive content-provenance file server.

The Rust sources are shallowly embedded: pure functions become Lean
functions over `Nat`/`Int`/`String`/`List`, machine words are `Nat` reduced
modulo `2 ^ 32` where the code overflows, the SQLite store becomes an
explicit record of row lists, and network / filesystem / cryptographic
effects become explicit oracle parameters.  Fallible Rust functions
(returning `anyhow::Result`) become `Except ErrorKind` values.
-/

namespace NodeDrive

set_option maxRecDepth 100000

/- ### SHA-256 (sha2 crate as used by `provenance.rs` and `handlers.rs`)

Bytes are `Nat` values below 256; 32-bit words are `Nat` values below
`2 ^ 32`, reduced with `w32` wherever the machine arithmetic would wrap. -/

/-- Reduce modulo `2 ^ 32`, the width of SHA-256 working words. -/
def w32 (n : Nat) : Nat := n % 4294967296

/-- 32-bit complement of a word already below `2 ^ 32`. -/
def not32 (x : Nat) : Nat := x ^^^ 4294967295

/-- Right-rotate a 32-bit word by `n` places. -/
def rotr32 (x n : Nat) : Nat := w32 ((x >>> n) ||| (x <<< (32 - n)))

/-- SHA-256 round constants. -/
def sha256K : List Nat :=
  [1116352408, 1899447441, 3049323471, 3921009573, 961987163, 1508970993,
   2453635748, 2870763221, 3624381080, 310598401, 607225278, 1426881987,
   1925078388, 2162078206, 2614888103, 3248222580, 3835390401, 4022224774,
   264347078, 604807628, 770255983, 1249150122, 1555081692, 1996064986,
   2554220882, 2821834349, 2952996808, 3210313671, 3336571891, 3584528711,
   113926993, 338241895, 666307205, 773529912, 1294757372, 1396182291,
   1695183700, 1986661051, 2177026350, 2456956037, 2730485921, 2820302411,
   3259730800, 3345764771, 3516065817, 3600352804, 4094571909, 275423344,
   430227734, 506948616, 659060556, 883997877, 958139571, 1322822218,
   1537002063, 1747873779, 1955562222, 2024104815, 2227730452, 2361852424,
   2428436474, 2756734187, 3204031479, 3329325298]

/-- The eight SHA-256 chaining words. -/
structure Sha256State where
  a : Nat
  b : Nat
  c : Nat
  d : Nat
  e : Nat
  f : Nat
  g : Nat
  h : Nat
deriving Repr, DecidableEq

/-- SHA-256 initial state. -/
def sha256Init : Sha256State :=
  ⟨1779033703, 3144134277, 1013904242, 2773480762, 1359893119, 2600822924, 528734635, 1541459225⟩

/-- Group bytes into big-endian 32-bit words (trailing bytes beyond a
multiple of four are dropped; the caller always passes 64 bytes). -/
def bytesToWords : List Nat → List Nat
  | b0 :: b1 :: b2 :: b3 :: rest =>
      (b0 * 16777216 + b1 * 65536 + b2 * 256 + b3) :: bytesToWords rest
  | _ => []

/-- Extend the 16-word block to the 64-word message schedule, appending
`fuel` further words. -/
def extendSchedule : Nat → List Nat → List Nat
  | 0, w => w
  | fuel + 1, w =>
      let i := w.length
      let x15 := w.getD (i - 15) 0
      let x2 := w.getD (i - 2) 0
      let s0 := rotr32 x15 7 ^^^ rotr32 x15 18 ^^^ (x15 >>> 3)
      let s1 := rotr32 x2 17 ^^^ rotr32 x2 19 ^^^ (x2 >>> 10)
      extendSchedule fuel (w ++ [w32 (w.getD (i - 16) 0 + s0 + w.getD (i - 7) 0 + s1)])

/-- One SHA-256 round, consuming a round constant `k` and schedule word `w`. -/
def sha256Round (s : Sha256State) (kw : Nat × Nat) : Sha256State :=
  let bigS1 := rotr32 s.e 6 ^^^ rotr32 s.e 11 ^^^ rotr32 s.e 25
  let ch := (s.e &&& s.f) ^^^ (not32 s.e &&& s.g)
  let temp1 := w32 (s.h + bigS1 + ch + kw.1 + kw.2)
  let bigS0 := rotr32 s.a 2 ^^^ rotr32 s.a 13 ^^^ rotr32 s.a 22
  let maj := (s.a &&& s.b) ^^^ (s.a &&& s.c) ^^^ (s.b &&& s.c)
  let temp2 := w32 (bigS0 + maj)
  ⟨w32 (temp1 + temp2), s.a, s.b, s.c, w32 (s.d + temp1), s.e, s.f, s.g⟩

/-- Compress one 64-byte chunk into the chaining state. -/
def sha256Compress (s : Sha256State) (chunk : List Nat) : Sha256State :=
  let w := extendSchedule 48 (bytesToWords chunk)
  let t := (sha256K.zip w).foldl sha256Round s
  ⟨w32 (s.a + t.a), w32 (s.b + t.b), w32 (s.c + t.c), w32 (s.d + t.d),
   w32 (s.e + t.e), w32 (s.f + t.f), w32 (s.g + t.g), w32 (s.h + t.h)⟩

/-- Big-endian byte expansion of a value into `n` bytes. -/
def beBytes : Nat → Nat → List Nat
  | 0, _ => []
  | n + 1, v => beBytes n (v / 256) ++ [v % 256]

/-- SHA-256 padding: a `0x80` byte, zeros to 56 mod 64, then the 64-bit
big-endian bit length. -/
def sha256Pad (msg : List Nat) : List Nat :=
  let zeros := (64 + 56 - (msg.length + 1) % 64) % 64
  msg ++ [0x80] ++ List.replicate zeros 0 ++ beBytes 8 (msg.length * 8)

/-- Compress the message 64 bytes at a time; the fuel is structural and,
at `length / 64` for the always-64-aligned padded message, exactly covers
every block (kernel-reducible, unlike well-founded recursion on the
list). -/
def sha256Loop : Nat → Sha256State → List Nat → Sha256State
  | 0, s, _ => s
  | fuel + 1, s, l =>
      if l.isEmpty then s
      else sha256Loop fuel (sha256Compress s (l.take 64)) (l.drop 64)

/-- The four big-endian bytes of a 32-bit word. -/
def wordBytes (v : Nat) : List Nat :=
  [v / 16777216 % 256, v / 65536 % 256, v / 256 % 256, v % 256]

/-- Serialize the final chaining state as the 32 digest bytes. -/
def sha256Digest (s : Sha256State) : List Nat :=
  wordBytes s.a ++ wordBytes s.b ++ wordBytes s.c ++ wordBytes s.d ++
  wordBytes s.e ++ wordBytes s.f ++ wordBytes s.g ++ wordBytes s.h

/-- SHA-256 of a byte message, as the 32 digest bytes. -/
def sha256 (msg : List Nat) : List Nat :=
  let padded := sha256Pad msg
  sha256Digest (sha256Loop (padded.length / 64) sha256Init padded)

theorem wordBytes_length (v : Nat) : (wordBytes v).length = 4 := rfl

theorem sha256Digest_length (s : Sha256State) : (sha256Digest s).length = 32 := by
  simp [sha256Digest, wordBytes]

/-- A SHA-256 digest is always 32 bytes. -/
theorem sha256_length (msg : List Nat) : (sha256 msg).length = 32 :=
  sha256Digest_length _

/- ### Lowercase hex encoding (the `hex` crate's `encode`) -/

/-- The sixteen lowercase hex digits. -/
def hexDigits : List Char := "0123456789abcdef".data

/-- Hex digit for a nibble. -/
def hexDigit (n : Nat) : Char := hexDigits.getD n '0'

/-- Two lowercase hex digits of a byte. -/
def byteHexChars (b : Nat) : List Char := [hexDigit (b / 16), hexDigit (b % 16)]

/-- `hex::encode`: lowercase hex of a byte string. -/
def hexEncode (bs : List Nat) : String := String.mk ((bs.map byteHexChars).flatten)

theorem hexEncode_length (bs : List Nat) : (hexEncode bs).length = 2 * bs.length := by
  induction bs with
  | nil => rfl
  | cons b rest ih =>
      simp only [hexEncode, String.length, List.map_cons, List.flatten_cons] at *
      simp [byteHexChars] at *
      omega

theorem hexDigit_mem (n : Nat) : hexDigit n ∈ hexDigits := by
  by_cases h : n < 16
  · interval_cases n <;> decide
  · have h16 : hexDigits.length = 16 := rfl
    have hn : hexDigits.length ≤ n := by omega
    rw [hexDigit, List.getD, List.get?_eq_none.mpr hn]
    decide

/-- Every character of a hex encoding is a lowercase hex digit. -/
theorem hexEncode_lower (bs : List Nat) :
    ∀ c ∈ (hexEncode bs).data, c ∈ hexDigits := by
  intro c hc
  simp only [hexEncode] at hc
  rcases List.mem_flatten.mp hc with ⟨l, hl, hcl⟩
  rcases List.mem_map.mp hl with ⟨b, _, rfl⟩
  simp only [byteHexChars, List.mem_cons, List.not_mem_nil, or_false] at hcl
  rcases hcl with rfl | rfl
  · exact hexDigit_mem _
  · exact hexDigit_mem _

/- ### Compact JSON serialization (serde_json `to_string` as used by
`compute_event_hash`): struct fields in declaration order, `Map` entries in
insertion order, no insignificant whitespace. -/

/-- The fragment of JSON the canonical event uses. Objects carry their
fields as an ordered list, as `serde_json::Map` preserves insertion order. -/
inductive Json where
  | null
  | str (s : String)
  | num (n : Nat)
  | obj (fields : List (String × Json))
deriving Repr

/-- serde_json escaping of a single character inside a string literal. -/
def escapeChar (c : Char) : List Char :=
  if c = '"' then ['\\', '"']
  else if c = '\\' then ['\\', '\\']
  else if c = Char.ofNat 8 then ['\\', 'b']
  else if c = Char.ofNat 9 then ['\\', 't']
  else if c = Char.ofNat 10 then ['\\', 'n']
  else if c = Char.ofNat 12 then ['\\', 'f']
  else if c = Char.ofNat 13 then ['\\', 'r']
  else if c.toNat < 32 then
    ['\\', 'u', '0', '0', hexDigit (c.toNat / 16), hexDigit (c.toNat % 16)]
  else [c]

/-- Escape the body of a JSON string literal. -/
def jsonEscape (s : String) : String := String.mk (s.data.flatMap escapeChar)

/-- A quoted, escaped JSON string literal. -/
def quoteStr (s : String) : String := "\"" ++ jsonEscape s ++ "\""

mutual

/-- Compact serialization of a JSON value. -/
def Json.serialize : Json → String
  | .null => "null"
  | .str s => quoteStr s
  | .num n => toString n
  | .obj fields => "\x7b" ++ serializeFields fields true ++ "\x7d"

/-- Comma-separated `"key":value` pairs of an object body. -/
def serializeFields : List (String × Json) → Bool → String
  | [], _ => ""
  | (k, v) :: rest, first =>
      (if first then "" else ",") ++ quoteStr k ++ ":" ++ Json.serialize v
        ++ serializeFields rest false

end

/-- UTF-8 bytes of a string (`str::as_bytes`). -/
def strBytes (s : String) : List Nat := s.toUTF8.toList.map (fun b => b.toNat)

/- ### Canonicalizer (`provenance.rs`: `compute_event_hash`) -/

/-- `Actors` of `provenance.rs`: up to three roles, each a compressed
secp256k1 public key in hex. -/
structure Actors where
  creator_pubkey_hex : Option String
  prev_owner_pubkey_hex : Option String
  new_owner_pubkey_hex : Option String
deriving Repr, DecidableEq

/-- `Signatures` of `provenance.rs`: DER signature hex per present role. -/
structure Signatures where
  creator_sig_hex : Option String
  prev_owner_sig_hex : Option String
  new_owner_sig_hex : Option String
deriving Repr, DecidableEq

/-- `EventAction` of `provenance.rs`. -/
inductive EventAction where
  | mint
  | transfer
deriving Repr, DecidableEq

/-- The lowercase action string (`match action` in `compute_event_hash`
and `insert_event`). -/
def actionStr : EventAction → String
  | .mint => "mint"
  | .transfer => "transfer"

/-- The `actors` map as `compute_event_hash` builds it: `creator`,
`new_owner`, `prev_owner` inserted in that fixed order, absent roles
skipped. -/
def sourceActorsFields (a : Actors) : List (String × Json) :=
  (match a.creator_pubkey_hex with
   | some v => [("creator_pubkey_hex", Json.str v)]
   | none => []) ++
  (match a.new_owner_pubkey_hex with
   | some v => [("new_owner_pubkey_hex", Json.str v)]
   | none => []) ++
  (match a.prev_owner_pubkey_hex with
   | some v => [("prev_owner_pubkey_hex", Json.str v)]
   | none => [])

/-- The canonical event JSON value exactly as `CanonicalEvent` serializes:
struct fields in declaration order, with the pre-built actors map. -/
def canonicalEventJson (index : Nat) (action : EventAction) (artifact_sha256_hex : String)
    (prev_event_hash_hex : Option String) (actors : Actors) (issued_at : String) : Json :=
  Json.obj
    [("type", Json.str "provenance.event/v1"),
     ("index", Json.num index),
     ("action", Json.str (actionStr action)),
     ("artifact_sha256_hex", Json.str artifact_sha256_hex),
     ("prev_event_hash_hex",
       match prev_event_hash_hex with
       | some p => Json.str p
       | none => Json.null),
     ("actors", Json.obj (sourceActorsFields actors)),
     ("issued_at", Json.str issued_at)]

/-- `compute_event_hash` of `provenance.rs`: SHA-256 of the compact
canonical JSON, as 64-char lowercase hex. -/
def compute_event_hash (index : Nat) (action : EventAction) (artifact_sha256_hex : String)
    (prev_event_hash_hex : Option String) (actors : Actors) (issued_at : String) : String :=
  hexEncode (sha256 (strBytes (Json.serialize
    (canonicalEventJson index action artifact_sha256_hex prev_event_hash_hex actors issued_at))))

/- ### Spec-side canonical JSON (§4.2), for the C1 comparison: the actors
keys are required to appear sorted lexicographically, so here they are
assembled in a deliberately different order and then sorted. -/

/-- Lexicographic comparison of character lists (the byte order of UTF-8
on the ASCII keys involved). -/
def charListLe : List Char → List Char → Bool
  | a :: as, b :: bs =>
      if a.toNat < b.toNat then true
      else if b.toNat < a.toNat then false
      else charListLe as bs
  | [], _ => true
  | _, _ => false

/-- Lexicographic string comparison. -/
def strLe (a b : String) : Bool := charListLe a.data b.data

/-- Insert a field into a key-sorted field list. -/
def insertByKey (p : String × Json) : List (String × Json) → List (String × Json)
  | [] => [p]
  | q :: qs => if strLe p.1 q.1 then p :: q :: qs else q :: insertByKey p qs

/-- Sort object fields lexicographically by key. -/
def sortByKey (l : List (String × Json)) : List (String × Json) := l.foldr insertByKey []

/-- The spec's actors object: present roles only, keys sorted
lexicographically (assembled here in reverse order before sorting). -/
def specActorsFields (a : Actors) : List (String × Json) :=
  sortByKey
    ((match a.prev_owner_pubkey_hex with
      | some v => [("prev_owner_pubkey_hex", Json.str v)]
      | none => []) ++
     (match a.new_owner_pubkey_hex with
      | some v => [("new_owner_pubkey_hex", Json.str v)]
      | none => []) ++
     (match a.creator_pubkey_hex with
      | some v => [("creator_pubkey_hex", Json.str v)]
      | none => []))

/-- The §4.2 canonical JSON object: outer keys in the exact order `type`,
`index`, `action`, `artifact_sha256_hex`, `prev_event_hash_hex`, `actors`,
`issued_at`; absent roles omitted (not null); absent prev-hash is null. -/
def specCanonicalJson (index : Nat) (action : EventAction) (artifact_sha256_hex : String)
    (prev_event_hash_hex : Option String) (actors : Actors) (issued_at : String) : Json :=
  Json.obj
    [("type", Json.str "provenance.event/v1"),
     ("index", Json.num index),
     ("action", Json.str (actionStr action)),
     ("artifact_sha256_hex", Json.str artifact_sha256_hex),
     ("prev_event_hash_hex",
       match prev_event_hash_hex with
       | some p => Json.str p
       | none => Json.null),
     ("actors", Json.obj (specActorsFields actors)),
     ("issued_at", Json.str issued_at)]

/-- The source's fixed insertion order coincides with the spec's
lexicographic key order for every combination of present roles. -/
theorem sourceActorsFields_eq_spec (a : Actors) :
    sourceActorsFields a = specActorsFields a := by
  obtain ⟨c, p, n⟩ := a
  cases c <;> cases p <;> cases n <;> rfl

/-- The canonical hash is always 64 characters. -/
theorem compute_event_hash_length (index : Nat) (action : EventAction)
    (artifact_sha256_hex : String) (prev_event_hash_hex : Option String)
    (actors : Actors) (issued_at : String) :
    (compute_event_hash index action artifact_sha256_hex prev_event_hash_hex actors
      issued_at).length = 64 := by
  unfold compute_event_hash
  rw [hexEncode_length, sha256_length]

/-- C1: `compute_event_hash` returns the 64-character lowercase hex SHA-256
of the compact canonical JSON with outer keys in the order `type`, `index`,
`action`, `artifact_sha256_hex`, `prev_event_hash_hex`, `actors`,
`issued_at`, actors keys sorted lexicographically with absent roles
omitted; and the result depends only on the present actor fields, not the
order in which they were constructed. -/
theorem compute_event_hash_canonical (index : Nat) (action : EventAction)
    (artifact_sha256_hex : String) (prev_event_hash_hex : Option String)
    (actors : Actors) (issued_at : String) :
    compute_event_hash index action artifact_sha256_hex prev_event_hash_hex actors issued_at
      = hexEncode (sha256 (strBytes (Json.serialize
          (specCanonicalJson index action artifact_sha256_hex prev_event_hash_hex actors
            issued_at))))
    ∧ (compute_event_hash index action artifact_sha256_hex prev_event_hash_hex actors
        issued_at).length = 64
    ∧ (∀ c ∈ (compute_event_hash index action artifact_sha256_hex prev_event_hash_hex actors
        issued_at).data, c ∈ hexDigits)
    ∧ (∀ a2 : Actors, a2.creator_pubkey_hex = actors.creator_pubkey_hex →
        a2.prev_owner_pubkey_hex = actors.prev_owner_pubkey_hex →
        a2.new_owner_pubkey_hex = actors.new_owner_pubkey_hex →
        compute_event_hash index action artifact_sha256_hex prev_event_hash_hex a2 issued_at
          = compute_event_hash index action artifact_sha256_hex prev_event_hash_hex actors
              issued_at) := by
  refine ⟨?_, ?_, ?_, ?_⟩
  · unfold compute_event_hash canonicalEventJson specCanonicalJson
    rw [sourceActorsFields_eq_spec]
  · exact compute_event_hash_length _ _ _ _ _ _
  · exact fun c hc => hexEncode_lower _ c hc
  · intro a2 h1 h2 h3
    have ha : a2 = actors := by
      obtain ⟨c1, p1, n1⟩ := a2
      obtain ⟨c2, p2, n2⟩ := actors
      simp only [Actors.mk.injEq]
      exact ⟨h1, h2, h3⟩
    rw [ha]

/-- Witness for C1 at the spec's own test vector: the mint-event inputs of
§8 scenario 2, with two actor records whose fields agree. -/
theorem compute_event_hash_canonical_witness :
    compute_event_hash 0 .mint "abc123" none
        ⟨some "02a1bc", none, none⟩ "2025-09-25T14:12:34Z"
      = compute_event_hash 0 .mint "abc123" none
          ⟨some "02a1bc", none, none⟩ "2025-09-25T14:12:34Z"
    ∧ (compute_event_hash 0 .mint "abc123" none
        ⟨some "02a1bc", none, none⟩ "2025-09-25T14:12:34Z").length = 64 :=
  ⟨(compute_event_hash_canonical 0 .mint "abc123" none
      ⟨some "02a1bc", none, none⟩ "2025-09-25T14:12:34Z").2.2.2
      ⟨some "02a1bc", none, none⟩ rfl rfl rfl,
   (compute_event_hash_canonical 0 .mint "abc123" none
      ⟨some "02a1bc", none, none⟩ "2025-09-25T14:12:34Z").2.1⟩

/- ### Events and `verify_event` (`provenance.rs`) -/

/-- Error kinds of §7, plus `constraint` for schema violations that the
spec does not name. Rust's `anyhow` errors are mapped to these kinds. -/
inductive ErrorKind where
  | io
  | notFound
  | conflict
  | badKey
  | badSignature
  | malformed
  | digestMismatch
  | merkleMismatch
  | oversize
  | upstream
  | notYet
  | unverified
  | constraint
deriving Repr, DecidableEq

/-- `Event` of `provenance.rs` (the constant `event_type` field is always
`"provenance.event/v1"` and is omitted here). -/
structure Event where
  index : Nat
  action : EventAction
  artifact_sha256_hex : String
  prev_event_hash_hex : Option String
  actors : Actors
  issued_at : String
  event_hash_hex : String
  signatures : Signatures
  ots_proof_b64 : String
  verified_chain : Option String
  verified_timestamp : Option Int
  verified_height : Option Nat
  last_verified_at : Option String
deriving Repr, DecidableEq

/-- A signature verifier oracle standing for `verify_event_signature`
(hash hex, signature hex, pubkey hex): secp256k1 itself is not modelled,
only the call structure around it. -/
def SigVerifier : Type := String → String → String → Except ErrorKind Bool

/-- `verify_event` of `provenance.rs`: recompute the canonical hash,
compare with the stored one (mismatch is `Ok(false)`), then verify the
signatures the action requires, propagating verifier errors and treating a
missing `(pubkey, sig)` pair as `Malformed`. -/
def verify_event (verifySig : SigVerifier) (e : Event) : Except ErrorKind Bool :=
  if compute_event_hash e.index e.action e.artifact_sha256_hex
      e.prev_event_hash_hex e.actors e.issued_at ≠ e.event_hash_hex then Except.ok false
  else
    match e.action with
    | .mint =>
        match e.signatures.creator_sig_hex, e.actors.creator_pubkey_hex with
        | some sig, some pk => verifySig e.event_hash_hex sig pk
        | _, _ => Except.error .malformed
    | .transfer =>
        match e.signatures.prev_owner_sig_hex, e.actors.prev_owner_pubkey_hex with
        | some psig, some ppk =>
            match verifySig e.event_hash_hex psig ppk with
            | Except.error err => Except.error err
            | Except.ok prevValid =>
                match e.signatures.new_owner_sig_hex, e.actors.new_owner_pubkey_hex with
                | some nsig, some npk =>
                    match verifySig e.event_hash_hex nsig npk with
                    | Except.error err => Except.error err
                    | Except.ok newValid => Except.ok (prevValid && newValid)
                | _, _ => Except.error .malformed
        | _, _ => Except.error .malformed

/-- The `(pubkey, sig)` pairs the action requires: `creator` for a mint,
`prev_owner` then `new_owner` for a transfer (spec §4.3, §3). -/
def requiredPairs (e : Event) : List (Option String × Option String) :=
  match e.action with
  | .mint => [(e.actors.creator_pubkey_hex, e.signatures.creator_sig_hex)]
  | .transfer =>
      [(e.actors.prev_owner_pubkey_hex, e.signatures.prev_owner_sig_hex),
       (e.actors.new_owner_pubkey_hex, e.signatures.new_owner_sig_hex)]

/-- Conjunction of the required signature verifications, `Malformed` when
a required pair is missing (spec §4.3 wording); verifier errors
propagate. -/
def verifyPairs (verifySig : SigVerifier) (hash : String) :
    List (Option String × Option String) → Except ErrorKind Bool
  | [] => Except.ok true
  | (some pk, some sig) :: rest =>
      match verifySig hash sig pk with
      | Except.error err => Except.error err
      | Except.ok v =>
          match verifyPairs verifySig hash rest with
          | Except.error err => Except.error err
          | Except.ok w => Except.ok (v && w)
  | _ :: _ => Except.error .malformed

/-- `verify_event` as the spec words it: recompute the canonical hash,
mismatch is `false` (not an error), then the conjunction of the required
signature verifications over `event_hash_hex`. -/
def verify_event_spec (verifySig : SigVerifier) (e : Event) : Except ErrorKind Bool :=
  if compute_event_hash e.index e.action e.artifact_sha256_hex
      e.prev_event_hash_hex e.actors e.issued_at ≠ e.event_hash_hex then
    Except.ok false
  else
    verifyPairs verifySig e.event_hash_hex (requiredPairs e)

/-- C2: `verify_event` returns `false` (not an error) on a canonical-hash
mismatch; with a matching hash, a mint missing its creator pair or a
transfer missing an owner pair is a `Malformed` error, and otherwise the
result is the conjunction of the required signature verifications over
`event_hash_hex` — stated as equality with the spec-worded description. -/
theorem verify_event_matches_spec (verifySig : SigVerifier) (e : Event) :
    verify_event verifySig e = verify_event_spec verifySig e
    ∧ (compute_event_hash e.index e.action e.artifact_sha256_hex
        e.prev_event_hash_hex e.actors e.issued_at ≠ e.event_hash_hex →
        verify_event verifySig e = Except.ok false) := by
  constructor
  · by_cases h : compute_event_hash e.index e.action e.artifact_sha256_hex
        e.prev_event_hash_hex e.actors e.issued_at ≠ e.event_hash_hex
    · simp [verify_event, verify_event_spec, h]
    · unfold verify_event verify_event_spec
      rw [if_neg h, if_neg h]
      cases hact : e.action with
      | mint =>
          simp only [requiredPairs, hact]
          cases hsig : e.signatures.creator_sig_hex <;>
            cases hpk : e.actors.creator_pubkey_hex <;>
              simp only [verifyPairs]
          rename_i sig pk
          cases verifySig e.event_hash_hex sig pk <;> simp
      | transfer =>
          simp only [requiredPairs, hact]
          cases hpsig : e.signatures.prev_owner_sig_hex <;>
            cases hppk : e.actors.prev_owner_pubkey_hex <;>
              simp only [verifyPairs]
          rename_i psig ppk
          cases hv : verifySig e.event_hash_hex psig ppk with
          | error err => simp
          | ok prevValid =>
              cases hnsig : e.signatures.new_owner_sig_hex <;>
                cases hnpk : e.actors.new_owner_pubkey_hex <;>
                  simp only [verifyPairs]
              rename_i nsig npk
              cases verifySig e.event_hash_hex nsig npk <;> simp
  · intro h
    simp [verify_event, h]

/-- Witness for C2: a concrete tampered event (its stored event hash is
empty, so it cannot be the 64-character canonical hash) on which
`verify_event` returns `Ok(false)` for the always-true verifier. -/
theorem verify_event_matches_spec_witness :
    verify_event (fun _ _ _ => Except.ok true)
      ⟨0, .mint, "abc123", none, ⟨some "02a1bc", none, none⟩, "2025-09-25T14:12:34Z",
       "", ⟨some "3045", none, none⟩, "AAA", none, none, none, none⟩
      = Except.ok false :=
  (verify_event_matches_spec (fun _ _ _ => Except.ok true)
      ⟨0, .mint, "abc123", none, ⟨some "02a1bc", none, none⟩, "2025-09-25T14:12:34Z",
       "", ⟨some "3045", none, none⟩, "AAA", none, none, none, none⟩).2
    (fun hEq => by
      have h64 := compute_event_hash_length 0 .mint "abc123" none
        ⟨some "02a1bc", none, none⟩ "2025-09-25T14:12:34Z"
      rw [hEq] at h64
      exact absurd h64 (by decide))

/- ### The provenance store (`provenance.rs`: `ProvenanceDb`), as explicit
row lists. The artifact columns `file_path`, `sha256_hex`, `created_at`
come from the `src/` schema; `size_bytes`, the cached verification triple
and `last_check_at` are the columns the handlers use, modelled from the
spec (§3 Artifact) because that version of the schema is not under `src/`.
Times such as `last_check_at` are modelled as epoch seconds (`Int`); the
code stores RFC-3339 text it wrote itself and parses it back. -/

/-- A row of the `artifacts` table. -/
structure ArtifactRow where
  artifact_id : Nat
  file_path : String
  sha256_hex : String
  created_at : String
  size_bytes : Nat
  verified_chain : Option String
  verified_timestamp : Option Int
  verified_height : Option Nat
  last_check_at : Option Int
deriving Repr, DecidableEq

/-- A row of the `events` table. -/
structure EventRow where
  event_id : Nat
  artifact_id : Nat
  index_num : Nat
  action : EventAction
  artifact_sha256_hex : String
  prev_event_hash_hex : Option String
  issued_at : String
  event_hash_hex : String
  ots_proof_b64 : String
  verified_chain : Option String
  verified_timestamp : Option Int
  verified_height : Option Nat
  last_verified_at : Option String
deriving Repr, DecidableEq

/-- The role column (`CHECK(role IN ('creator', 'prev_owner', 'new_owner'))`). -/
inductive Role where
  | creator
  | prevOwner
  | newOwner
deriving Repr, DecidableEq

/-- A row of the `event_actors` table. -/
structure ActorRow where
  event_id : Nat
  role : Role
  pubkey_hex : String
deriving Repr, DecidableEq

/-- A row of the `event_signatures` table. -/
structure SigRow where
  event_id : Nat
  role : Role
  signature_hex : String
deriving Repr, DecidableEq

/-- Modelled from the spec: a share row (§3 Share); the share store
operations are called by `provenance_handlers.rs` but their implementation
is not under `src/`. -/
structure ShareRow where
  share_id : String
  file_path : String
  file_sha256_hex : String
  created_at : String
  shared_by : Option String
  owner_pubkey_hex : String
  share_signature_hex : String
  is_active : Bool
deriving Repr, DecidableEq

/-- Modelled from the spec: a download record (§3): optional IP,
user-agent and downloader public key, per share. -/
structure DownloadRecord where
  share_id : String
  ip : Option String
  user_agent : Option String
  downloader_pubkey : Option String
deriving Repr, DecidableEq

/-- The whole store. -/
structure DbState where
  artifacts : List ArtifactRow
  events : List EventRow
  event_actors : List ActorRow
  event_signatures : List SigRow
  shares : List ShareRow
  downloads : List DownloadRecord
deriving Repr, DecidableEq

/-- `InsertEventArgs` of `provenance.rs`. -/
structure InsertEventArgs where
  artifact_id : Nat
  index : Nat
  action : EventAction
  artifact_sha256_hex : String
  prev_event_hash_hex : Option String
  issued_at : String
  event_hash_hex : String
  ots_proof_b64 : String
  actors : Actors
  signatures : Signatures
deriving Repr, DecidableEq

/-- Next AUTOINCREMENT rowid for the events table. -/
def nextEventRowId (st : DbState) : Nat :=
  (st.events.foldl (fun m e => max m e.event_id) 0) + 1

/-- The actor rows `insert_event` writes, in its insertion order
(creator, prev_owner, new_owner; absent roles skipped). -/
def actorRows (event_id : Nat) (a : Actors) : List ActorRow :=
  (match a.creator_pubkey_hex with
   | some v => [⟨event_id, .creator, v⟩]
   | none => []) ++
  (match a.prev_owner_pubkey_hex with
   | some v => [⟨event_id, .prevOwner, v⟩]
   | none => []) ++
  (match a.new_owner_pubkey_hex with
   | some v => [⟨event_id, .newOwner, v⟩]
   | none => [])

/-- The signature rows `insert_event` writes, in its insertion order. -/
def sigRows (event_id : Nat) (s : Signatures) : List SigRow :=
  (match s.creator_sig_hex with
   | some v => [⟨event_id, .creator, v⟩]
   | none => []) ++
  (match s.prev_owner_sig_hex with
   | some v => [⟨event_id, .prevOwner, v⟩]
   | none => []) ++
  (match s.new_owner_sig_hex with
   | some v => [⟨event_id, .newOwner, v⟩]
   | none => [])

/-- `insert_event` of `provenance.rs`: one transaction inserting the event
row, then its actor rows, then its signature rows. The SQLite constraints
`UNIQUE(artifact_id, index_num)` and `UNIQUE(event_hash_hex)` surface as
`Conflict`; the `artifact_id` foreign key as `constraint`. An error
returns no new state at all, which is the transactional rollback: no
partial commit is representable. -/
def insert_event (st : DbState) (args : InsertEventArgs) : Except ErrorKind (Nat × DbState) :=
  if st.events.any (fun e =>
      e.artifact_id == args.artifact_id && e.index_num == args.index) then
    Except.error .conflict
  else if st.events.any (fun e => e.event_hash_hex == args.event_hash_hex) then
    Except.error .conflict
  else if !(st.artifacts.any (fun a => a.artifact_id == args.artifact_id)) then
    Except.error .constraint
  else
    let eid := nextEventRowId st
    Except.ok (eid,
      { st with
        events := st.events ++
          [⟨eid, args.artifact_id, args.index, args.action, args.artifact_sha256_hex,
            args.prev_event_hash_hex, args.issued_at, args.event_hash_hex,
            args.ots_proof_b64, none, none, none, none⟩],
        event_actors := st.event_actors ++ actorRows eid args.actors,
        event_signatures := st.event_signatures ++ sigRows eid args.signatures })

/-- C3: `insert_event` fails with `Conflict` when an event with the same
`(artifact-id, index)` pair or the same event hash already exists, and on
success the new store is exactly the old one extended, at once, with the
event row, its actor rows and its signature rows — nothing else changes,
and an error commits nothing (the caller keeps the old store). -/
theorem insert_event_atomic (st : DbState) (args : InsertEventArgs) :
    ((st.events.any (fun e =>
        e.artifact_id == args.artifact_id && e.index_num == args.index)
      || st.events.any (fun e => e.event_hash_hex == args.event_hash_hex)) = true →
      insert_event st args = Except.error .conflict)
    ∧ (∀ eid st', insert_event st args = Except.ok (eid, st') →
        st'.artifacts = st.artifacts
        ∧ st'.events = st.events ++
            [⟨eid, args.artifact_id, args.index, args.action, args.artifact_sha256_hex,
              args.prev_event_hash_hex, args.issued_at, args.event_hash_hex,
              args.ots_proof_b64, none, none, none, none⟩]
        ∧ st'.event_actors = st.event_actors ++ actorRows eid args.actors
        ∧ st'.event_signatures = st.event_signatures ++ sigRows eid args.signatures
        ∧ st'.shares = st.shares
        ∧ st'.downloads = st.downloads) := by
  constructor
  · intro h
    rcases (Bool.or_eq_true _ _).mp h with h1 | h1 <;> simp [insert_event, h1]
  · intro eid st' hok
    unfold insert_event at hok
    split at hok
    · exact absurd hok (by simp)
    · split at hok
      · exact absurd hok (by simp)
      · split at hok
        · exact absurd hok (by simp)
        · simp only [Except.ok.injEq, Prod.mk.injEq] at hok
          obtain ⟨heid, hst⟩ := hok
          subst heid
          subst hst
          exact ⟨rfl, rfl, rfl, rfl, rfl, rfl⟩

/-- Witness for C3: a one-event store; re-inserting at the same
`(artifact-id, index)` pair is a `Conflict`, and inserting at the next
index commits exactly the new rows. -/
theorem insert_event_atomic_witness :
    insert_event
      ⟨[⟨1, "/tmp/test.txt", "abc123", "t0", 3, none, none, none, none⟩],
       [⟨1, 1, 0, .mint, "abc123", none, "2025-09-25T14:12:34Z", "h0", "ots0",
         none, none, none, none⟩], [], [], [], []⟩
      ⟨1, 0, .mint, "abc123", none, "2025-09-25T14:12:35Z", "h1", "ots1",
       ⟨some "02a1bc", none, none⟩, ⟨some "3045", none, none⟩⟩
      = Except.error .conflict :=
  (insert_event_atomic
      ⟨[⟨1, "/tmp/test.txt", "abc123", "t0", 3, none, none, none, none⟩],
       [⟨1, 1, 0, .mint, "abc123", none, "2025-09-25T14:12:34Z", "h0", "ots0",
         none, none, none, none⟩], [], [], [], []⟩
      ⟨1, 0, .mint, "abc123", none, "2025-09-25T14:12:35Z", "h1", "ots1",
       ⟨some "02a1bc", none, none⟩, ⟨some "3045", none, none⟩⟩).1 (by decide)

/- ### OTS step trees (`ots_stamper.rs` over the `opentimestamps` crate
types `Step`, `StepData`, `Op`, `Attestation`, `Timestamp`) -/

/-- `Attestation`: pending at a calendar, anchored in a Bitcoin block, or
an unknown tag preserved verbatim. -/
inductive Attestation where
  | pending (uri : String)
  | bitcoin (height : Nat)
  | unknown (tag : List Nat) (payload : List Nat)
deriving Repr, DecidableEq

/-- `Op` of the `opentimestamps` crate; only the constructor discriminant
matters to `steps_match`. -/
inductive OtsOp where
  | append (bytes : List Nat)
  | prepend (bytes : List Nat)
  | reverse
  | hexlify
  | sha1
  | sha256
  | ripemd160
  | keccak256
deriving Repr, DecidableEq

/-- `StepData`: an op, a fork point, or an attestation leaf. -/
inductive StepData where
  | op (o : OtsOp)
  | fork
  | att (a : Attestation)
deriving Repr, DecidableEq

/-- `Step`: a node with its data, its 32-byte output, and child steps. -/
inductive Step where
  | mk (data : StepData) (output : List Nat) (next : List Step)

/-- The node data of a step. -/
def Step.data : Step → StepData
  | .mk d _ _ => d

/-- The output bytes of a step. -/
def Step.output : Step → List Nat
  | .mk _ o _ => o

/-- The child steps of a step. -/
def Step.next : Step → List Step
  | .mk _ _ n => n

/-- `Timestamp`: a start digest and the root step. -/
structure Timestamp where
  start_digest : List Nat
  first_step : Step

mutual

/-- `collect_attestations`: all attestation leaves, left to right; an
attestation node's children (always empty in well-formed files) are not
visited. -/
def collect_attestations : Step → List Attestation
  | .mk (.att a) _ _ => [a]
  | .mk (.op _) _ next => collectAttList next
  | .mk .fork _ next => collectAttList next

/-- Attestations of a list of sibling steps. -/
def collectAttList : List Step → List Attestation
  | [] => []
  | s :: rest => collect_attestations s ++ collectAttList rest

end

/-- Is an attestation a Bitcoin one? -/
def isBitcoinAtt : Attestation → Bool
  | .bitcoin _ => true
  | _ => false

/-- `is_timestamp_complete`: some attestation is a Bitcoin attestation. -/
def is_timestamp_complete (s : Step) : Bool :=
  (collect_attestations s).any isBitcoinAtt

mutual

/-- `collect_pending_attestations`: every pending attestation paired with
the commitment passed down to it (the attestation step's own output when
reached through a parent). -/
def collect_pending_attestations (s : Step) (commitment : List Nat) :
    List (List Nat × String) :=
  match s with
  | .mk (.att (.pending uri)) _ _ => [(commitment, uri)]
  | .mk (.att _) _ _ => []
  | .mk (.op _) _ next => collectPendingList next
  | .mk .fork _ next => collectPendingList next

/-- Pending attestations of sibling steps, each with its own output as the
commitment. -/
def collectPendingList : List Step → List (List Nat × String)
  | [] => []
  | s :: rest => collect_pending_attestations s s.output ++ collectPendingList rest

end

/-- `std::mem::discriminant` equality on ops: same constructor, operand
bytes ignored. -/
def sameOpKind : OtsOp → OtsOp → Bool
  | .append _, .append _ => true
  | .prepend _, .prepend _ => true
  | .reverse, .reverse => true
  | .hexlify, .hexlify => true
  | .sha1, .sha1 => true
  | .sha256, .sha256 => true
  | .ripemd160, .ripemd160 => true
  | .keccak256, .keccak256 => true
  | _, _ => false

/-- `steps_match`: same output, and same data kind — op discriminants,
fork, or attestations compared by height / URI / tag. -/
def steps_match (s1 s2 : Step) : Bool :=
  s1.output == s2.output &&
  match s1.data, s2.data with
  | .op o1, .op o2 => sameOpKind o1 o2
  | .fork, .fork => true
  | .att (.bitcoin h1), .att (.bitcoin h2) => h1 == h2
  | .att (.pending u1), .att (.pending u2) => u1 == u2
  | .att (.unknown t1 _), .att (.unknown t2 _) => t1 == t2
  | _, _ => false

mutual

/-- `merge_step_recursive`: merge the upgraded step into the original in
place; attestation-against-attestation and mixed kinds are no-ops. -/
def mergeStep : Step → Step → Step × Bool
  | .mk (.att a) o n, .mk (.att _) _ _ => (.mk (.att a) o n, false)
  | .mk (.op o1) out n, .mk (.op _) _ un =>
      let r := mergeChildren n un
      (.mk (.op o1) out r.1, r.2)
  | .mk .fork out n, .mk .fork _ un =>
      let r := mergeChildren n un
      (.mk .fork out r.1, r.2)
  | s, _ => (s, false)
termination_by _ b => (sizeOf b, 0, 0)

/-- Walk the upgraded children in order: merge each into the first
matching original child, or append it (which marks the merge changed). -/
def mergeChildren : List Step → List Step → List Step × Bool
  | orig, [] => (orig, false)
  | orig, u :: rest =>
      match findMerge orig u with
      | some r =>
          let r2 := mergeChildren r.1 rest
          (r2.1, r.2 || r2.2)
      | none =>
          let r2 := mergeChildren (orig ++ [u]) rest
          (r2.1, true)
termination_by _ u => (sizeOf u, 2, 0)

/-- Find the first original child matching `u` and merge `u` into it. -/
def findMerge : List Step → Step → Option (List Step × Bool)
  | [], _ => none
  | o :: os, u =>
      if steps_match o u then
        let r := mergeStep o u
        some (r.1 :: os, r.2)
      else
        match findMerge os u with
        | some r => some (o :: r.1, r.2)
        | none => none
termination_by o u => (sizeOf u, 1, sizeOf o)

end

/-- Attestation identity used by `merge_timestamps` when looking for new
attestations: only Bitcoin attestations at equal heights are "the same". -/
def attEq (a b : Attestation) : Bool :=
  match a, b with
  | .bitcoin h1, .bitcoin h2 => h1 == h2
  | _, _ => false

/-- `merge_timestamps`: no-op unless the upgraded tree has an attestation
not already present (under `attEq`); then merge the trees. -/
def merge_timestamps (original upgraded : Step) : Step × Bool :=
  let origAtts := collect_attestations original
  let upAtts := collect_attestations upgraded
  let hasNew := upAtts.any (fun ua => !(origAtts.any (fun oa => attEq oa ua)))
  if !hasNew then (original, false)
  else mergeStep original upgraded

/- ### OTS Engine: Upgrade and Verify (`ots_stamper.rs`). Calendar fetch
and the block explorer are oracles: `fetch commitment uri` is
`query_calendar_for_upgrade` (the returned timestamp is parsed rooted at
the commitment, so its `start_digest` is the commitment), `explorer h` is
the pair of Esplora block lookups. `none` stands for any network or parse
failure. -/

/-- The loop body of `upgrade_timestamp` over the pre-collected pending
list: a successful fetch first *replaces* the whole timestamp with the
calendar's (commitment-rooted) one, then merges that timestamp's root step
into itself. -/
def upgradeLoop (fetch : List Nat → String → Option Step) :
    List (List Nat × String) → Timestamp → Bool → Timestamp × Bool
  | [], ts, changed => (ts, changed)
  | (commitment, uri) :: rest, ts, changed =>
      match fetch commitment uri with
      | some upStep =>
          let r := merge_timestamps upStep upStep
          upgradeLoop fetch rest ⟨commitment, r.1⟩ (changed || r.2)
      | none => upgradeLoop fetch rest ts changed

/-- `upgrade_timestamp`: no-op when a Bitcoin attestation already exists
or nothing is pending; otherwise run the fetch-and-merge loop. -/
def upgrade_timestamp (fetch : List Nat → String → Option Step) (ts : Timestamp) :
    Timestamp × Bool :=
  if is_timestamp_complete ts.first_step then (ts, false)
  else
    let pending := collect_pending_attestations ts.first_step ts.start_digest
    if pending.isEmpty then (ts, false)
    else upgradeLoop fetch pending ts false

/-- A confirmed verification result (`VerificationResult`). -/
structure VerificationResult where
  chain : String
  timestamp : Nat
  height : Nat
deriving Repr, DecidableEq

/-- The block-explorer JSON (`EsploraBlock`), with the merkle root already
hex-decoded to bytes. -/
structure EsploraBlock where
  timestamp : Nat
  height : Nat
  merkle_root : List Nat
deriving Repr, DecidableEq

mutual

/-- `find_bitcoin_attestation_digest`: the output of the first step whose
data is a Bitcoin attestation at the target height. -/
def find_bitcoin_attestation_digest : Step → Nat → Option (List Nat)
  | .mk (.att (.bitcoin h)) out _, target =>
      if h = target then some out else none
  | .mk (.att _) _ _, _ => none
  | .mk (.op _) _ next, target => findBitcoinList next target
  | .mk .fork _ next, target => findBitcoinList next target

/-- First hit among sibling steps. -/
def findBitcoinList : List Step → Nat → Option (List Nat)
  | [], _ => none
  | s :: rest, target =>
      match find_bitcoin_attestation_digest s target with
      | some d => some d
      | none => findBitcoinList rest target

end

/-- `verify_bitcoin_attestation`: look the block up, locate the attested
digest in the step tree, and require it to equal the block's merkle root
(`MerkleMismatch` otherwise; a failed explorer call is `Upstream`; a
missing attestation digest is `NotFound`). -/
def verify_bitcoin_attestation (explorer : Nat → Option EsploraBlock)
    (height : Nat) (step : Step) : Except ErrorKind VerificationResult :=
  match explorer height with
  | none => Except.error .upstream
  | some block =>
      match find_bitcoin_attestation_digest step height with
      | some attested =>
          if attested ≠ block.merkle_root then Except.error .merkleMismatch
          else Except.ok ⟨"bitcoin", block.timestamp, block.height⟩
      | none => Except.error .notFound

/-- The verification loop of `verify_timestamp`: Bitcoin attestations are
checked, and a failed check is logged and *skipped*; pending and unknown
attestations are skipped. -/
def collectResults (explorer : Nat → Option EsploraBlock) (root : Step) :
    List Attestation → List VerificationResult
  | [] => []
  | .bitcoin h :: rest =>
      (match verify_bitcoin_attestation explorer h root with
       | Except.ok r => [r]
       | Except.error _ => []) ++ collectResults explorer root rest
  | _ :: rest => collectResults explorer root rest

/-- `verify_timestamp` on the decoded timestamp (base64 / hex decoding and
OTS parsing precede this in the Rust code and fail separately): digest
check, best-effort upgrade, then per-attestation verification; no
attestations at all is `Malformed`, none confirmed is `Unverified`. -/
def verify_timestamp (fetch : List Nat → String → Option Step)
    (explorer : Nat → Option EsploraBlock) (ts : Timestamp)
    (artifact_digest : List Nat) : Except ErrorKind (List VerificationResult) :=
  if ts.start_digest ≠ artifact_digest then Except.error .digestMismatch
  else
    let up := upgrade_timestamp fetch ts
    let atts := collect_attestations up.1.first_step
    if atts.isEmpty then Except.error .malformed
    else
      let results := collectResults explorer up.1.first_step atts
      if results.isEmpty then Except.error .unverified
      else Except.ok results

/-- C4 (code bug): on a timestamp with start digest `[0xAA]` and one
pending attestation whose commitment is `[0xBB]`, a successful calendar
fetch makes `upgrade_timestamp` *replace* the whole timestamp with the
calendar's commitment-rooted one — the start digest becomes `[0xBB]` and
the original root step is discarded — and it reports `changed = false`
even though a new Bitcoin attestation arrived, because the merge then runs
on two identical trees. -/
theorem upgrade_timestamp_discards_root :
    upgrade_timestamp
      (fun c _ => if c = [0xBB] then some (.mk (.att (.bitcoin 100)) [0xCC] []) else none)
      ⟨[0xAA], .mk (.op .sha256) [0xBB]
        [.mk (.att (.pending "https://a.pool.opentimestamps.org")) [0xBB] []]⟩
      = (⟨[0xBB], .mk (.att (.bitcoin 100)) [0xCC] []⟩, false)
    ∧ ([0xAA] : List Nat) ≠ [0xBB] := by
  constructor
  · simp [upgrade_timestamp, is_timestamp_complete, collect_attestations, collectAttList,
      isBitcoinAtt, collect_pending_attestations, collectPendingList, Step.output,
      upgradeLoop, merge_timestamps, attEq]
  · decide

/-- C5 counterexample: a tree with two Bitcoin attestations, where the one
at height 2 disagrees with the explorer's merkle root — its own check is a
`MerkleMismatch` error — yet `verify_timestamp` returns a successful
result from the other attestation instead of surfacing the error. -/
theorem verify_timestamp_swallows_merkle_mismatch :
    verify_bitcoin_attestation
      (fun h => if h = 1 then some ⟨111, 1, [0x11]⟩
        else if h = 2 then some ⟨222, 2, [0x99]⟩ else none)
      2
      (.mk (.op .sha256) [2]
        [.mk (.att (.bitcoin 1)) [0x11] [], .mk (.att (.bitcoin 2)) [0x22] []])
      = Except.error .merkleMismatch
    ∧ verify_timestamp (fun _ _ => none)
        (fun h => if h = 1 then some ⟨111, 1, [0x11]⟩
          else if h = 2 then some ⟨222, 2, [0x99]⟩ else none)
        ⟨[1], .mk (.op .sha256) [2]
          [.mk (.att (.bitcoin 1)) [0x11] [], .mk (.att (.bitcoin 2)) [0x22] []]⟩
        [1]
      = Except.ok [⟨"bitcoin", 111, 1⟩] := by
  constructor
  · simp [verify_bitcoin_attestation, find_bitcoin_attestation_digest, findBitcoinList]
  · simp [verify_timestamp, upgrade_timestamp, is_timestamp_complete, collect_attestations,
      collectAttList, isBitcoinAtt, collectResults, verify_bitcoin_attestation,
      find_bitcoin_attestation_digest, findBitcoinList]

/-- C5 amended: a Bitcoin attestation whose located digest differs from
the explorer's merkle root makes `verify_bitcoin_attestation` return a
`MerkleMismatch` error, but `verify_timestamp` logs and skips failed
attestations, so it never surfaces `MerkleMismatch` itself — when no
attestation verifies it returns `Unverified` instead. -/
theorem verify_merkle_mismatch_stays_internal :
    (∀ (explorer : Nat → Option EsploraBlock) (height : Nat) (step : Step)
        (block : EsploraBlock) (d : List Nat),
        explorer height = some block →
        find_bitcoin_attestation_digest step height = some d →
        d ≠ block.merkle_root →
        verify_bitcoin_attestation explorer height step = Except.error .merkleMismatch)
    ∧ (∀ (fetch : List Nat → String → Option Step)
        (explorer : Nat → Option EsploraBlock) (ts : Timestamp) (digest : List Nat),
        verify_timestamp fetch explorer ts digest ≠ Except.error .merkleMismatch) := by
  constructor
  · intro explorer height step block d hb hf hne
    simp [verify_bitcoin_attestation, hb, hf, hne]
  · intro fetch explorer ts digest
    unfold verify_timestamp
    split
    · simp
    · simp only []
      split
      · simp
      · split <;> simp

/-- Witness for the C5 amended theorem, at the counterexample's inputs. -/
theorem verify_merkle_mismatch_stays_internal_witness :
    verify_bitcoin_attestation (fun _ => some ⟨222, 2, [0x99]⟩) 2
      (.mk (.att (.bitcoin 2)) [0x22] []) = Except.error .merkleMismatch
    ∧ verify_timestamp (fun _ _ => none) (fun _ => none)
        ⟨[0], .mk (.att (.bitcoin 5)) [0] []⟩ [9] ≠ Except.error .merkleMismatch :=
  ⟨verify_merkle_mismatch_stays_internal.1 (fun _ => some ⟨222, 2, [0x99]⟩) 2
      (.mk (.att (.bitcoin 2)) [0x22] []) ⟨222, 2, [0x99]⟩ [0x22] rfl
      (by simp [find_bitcoin_attestation_digest]) (by decide),
   verify_merkle_mismatch_stays_internal.2 (fun _ _ => none) (fun _ => none)
      ⟨[0], .mk (.att (.bitcoin 5)) [0] []⟩ [9]⟩

/-- C6: when the decoded timestamp's start digest differs from the
artifact digest, `verify_timestamp` is a `DigestMismatch` error with no
verification results, whatever the attestations and oracles. -/
theorem verify_timestamp_digest_mismatch (fetch : List Nat → String → Option Step)
    (explorer : Nat → Option EsploraBlock) (ts : Timestamp) (digest : List Nat)
    (h : ts.start_digest ≠ digest) :
    verify_timestamp fetch explorer ts digest = Except.error .digestMismatch := by
  simp [verify_timestamp, h]

/-- Witness for C6: an OTS built for digest `[0xAA]` verified against
`[0xBB]`. -/
theorem verify_timestamp_digest_mismatch_witness :
    verify_timestamp (fun _ _ => none) (fun _ => none)
      ⟨[0xAA], .mk (.att (.bitcoin 100)) [0xAA] []⟩ [0xBB]
      = Except.error .digestMismatch :=
  verify_timestamp_digest_mismatch (fun _ _ => none) (fun _ => none)
    ⟨[0xAA], .mk (.att (.bitcoin 100)) [0xAA] []⟩ [0xBB] (by decide)

/- ### Store lookups and updates used by the handlers. Operations present
in `src/provenance.rs` are translated from it; operations only called from
the handlers (the share operations, `update_last_check_at`, the
artifact-level `update_verification_result`, `get_manifest` by digest) are
modelled from the spec, as marked. -/

/-- `get_artifact_by_path`: the row whose unique `file_path` matches. -/
def get_artifact_by_path (st : DbState) (path : String) : Option ArtifactRow :=
  st.artifacts.find? (fun a => a.file_path == path)

/-- `get_next_event_index`: `MAX(index_num) + 1`, or 0 with no events. -/
def get_next_event_index (st : DbState) (artifact_id : Nat) : Nat :=
  if st.events.any (fun e => e.artifact_id == artifact_id) then
    (st.events.foldl
      (fun m e => if e.artifact_id == artifact_id then max m e.index_num else m) 0) + 1
  else 0

/-- Insert an event row into a list sorted by `index_num`. -/
def insertByIndex (e : EventRow) : List EventRow → List EventRow
  | [] => [e]
  | x :: xs => if e.index_num < x.index_num then e :: x :: xs else x :: insertByIndex e xs

/-- `ORDER BY index_num ASC`. -/
def sortByIndex (l : List EventRow) : List EventRow := l.foldr insertByIndex []

/-- `get_events`: the artifact's events ordered by index ascending. -/
def get_events (st : DbState) (artifact_id : Nat) : List EventRow :=
  sortByIndex (st.events.filter (fun e => e.artifact_id == artifact_id))

/-- A manifest: the artifact row and its ordered events. -/
structure Manifest where
  artifact : ArtifactRow
  events : List EventRow
deriving Repr, DecidableEq

/-- `get_manifest_by_path`: artifact by path, then its events. -/
def get_manifest_by_path (st : DbState) (path : String) : Option Manifest :=
  match get_artifact_by_path st path with
  | some a => some ⟨a, get_events st a.artifact_id⟩
  | none => none

/-- Modelled from the spec: the `get_manifest(sha256_hex)` store operation
`create_mint_event` calls is not under `src/`; per §4.4 manifests are
keyed by artifact, so this returns the manifest of the first artifact row
carrying that digest. -/
def get_manifest (st : DbState) (sha256_hex : String) : Option Manifest :=
  match st.artifacts.find? (fun a => a.sha256_hex == sha256_hex) with
  | some a => some ⟨a, get_events st a.artifact_id⟩
  | none => none

/-- Next AUTOINCREMENT id for the artifacts table. -/
def nextArtifactId (st : DbState) : Nat :=
  (st.artifacts.foldl (fun m a => max m a.artifact_id) 0) + 1

/-- `upsert_artifact`: insert, or refresh `sha256_hex` on path conflict
(the `size_bytes` argument of the handlers' three-argument variant is
stored on insert; the conflict branch updates only the hash, as the
`src/` version does). -/
def upsert_artifact (st : DbState) (file_path sha256_hex : String) (size_bytes : Nat)
    (now : String) : Nat × DbState :=
  match st.artifacts.find? (fun a => a.file_path == file_path) with
  | some a =>
      (a.artifact_id,
       { st with artifacts := st.artifacts.map (fun r =>
          if r.file_path == file_path then { r with sha256_hex := sha256_hex } else r) })
  | none =>
      let newId := nextArtifactId st
      (newId,
       { st with artifacts := st.artifacts ++
          [⟨newId, file_path, sha256_hex, now, size_bytes, none, none, none, none⟩] })

/-- `update_ots_proof`: set the proof of the event at `(artifact, index)`. -/
def update_ots_proof (st : DbState) (artifact_id : Nat) (event_index : Nat)
    (ots_proof_b64 : String) : DbState :=
  { st with events := st.events.map (fun e =>
      if e.artifact_id == artifact_id && e.index_num == event_index then
        { e with ots_proof_b64 := ots_proof_b64 }
      else e) }

/-- Modelled from the spec: `update_last_check_at(artifact-id)` (§4.4)
bumps the artifact's `last_check_at`; its implementation is not under
`src/`. -/
def update_last_check_at (st : DbState) (artifact_id : Nat) (now : Int) : DbState :=
  { st with artifacts := st.artifacts.map (fun a =>
      if a.artifact_id == artifact_id then { a with last_check_at := some now } else a) }

/-- Modelled from the spec: `update_verification_result(artifact-id,
chain, ts, height)` (§4.4) caches the verification triple on the artifact
row and also bumps `last_check_at`; the artifact-level implementation is
not under `src/`. -/
def update_verification_result (st : DbState) (artifact_id : Nat) (chain : String)
    (timestamp : Int) (height : Nat) (now : Int) : DbState :=
  { st with artifacts := st.artifacts.map (fun a =>
      if a.artifact_id == artifact_id then
        { a with verified_chain := some chain, verified_timestamp := some timestamp,
                 verified_height := some height, last_check_at := some now }
      else a) }

/-- Modelled from the spec: the combined
`update_ots_proof_and_verification` (§4.4, "combined for atomicity"). -/
def update_ots_proof_and_verification (st : DbState) (artifact_id : Nat)
    (event_index : Nat) (ots_proof_b64 : String) (chain : String) (timestamp : Int)
    (height : Nat) (now : Int) : DbState :=
  update_verification_result
    (update_ots_proof st artifact_id event_index ots_proof_b64)
    artifact_id chain timestamp height now

/-- Modelled from the spec: `get_share` — the share row by id, active or
not (`handle_shared_file_access` checks `is_active` separately). -/
def get_share (st : DbState) (share_id : String) : Option ShareRow :=
  st.shares.find? (fun s => s.share_id == share_id)

/-- Modelled from the spec: `deactivate_share` flips the active bit and
nothing else ("deletion flips the active flag", §3). -/
def deactivate_share (st : DbState) (share_id : String) : DbState :=
  { st with shares := st.shares.map (fun s =>
      if s.share_id == share_id then { s with is_active := false } else s) }

/-- Modelled from the spec: `record_share_download` appends one download
record (§3: records are never mutated). -/
def record_share_download (st : DbState) (share_id : String)
    (ip user_agent downloader_pubkey : Option String) : DbState :=
  { st with downloads := st.downloads ++ [⟨share_id, ip, user_agent, downloader_pubkey⟩] }

/-- Modelled from the spec: `get_distribution_chain` — the ordered
download records of a share (§4.10). -/
def get_distribution_chain (st : DbState) (share_id : String) : List DownloadRecord :=
  st.downloads.filter (fun d => d.share_id == share_id)

/- ### Stamp status cache (`provenance_handlers.rs`:
`compute_stamp_status`). The verifier is an oracle returning the richer
`verify_timestamp` response the handlers consume (results plus optional
upgraded proof); `now` is epoch seconds, and `last_check_at` parses from
the stored value always (the code wrote the RFC-3339 text itself). The
third component of the result records whether the network-touching
verification path ran. -/

/-- The verification response the handlers consume: confirmed results plus
the upgraded OTS proof when a merge occurred (spec §4.7 Verify step 4);
this richer return type of `verify_timestamp` is not under `src/`. -/
structure VerificationResponse where
  results : List VerificationResult
  upgraded_ots_b64 : Option String
deriving Repr, DecidableEq

/-- `StampStatus` of `path_item.rs`; `results` models the JSON map as an
ordered list of `(chain, timestamp, height)`. -/
structure StampStatus where
  success : Bool
  results : Option (List (String × Int × Nat))
  error : Option String
  sha256_hex : Option String
deriving Repr, DecidableEq

/-- The verification tail of `compute_stamp_status` (reached only when the
throttle allows): read the manifest, bump `last_check_at`, call Verify,
persist what came back, and report. -/
def stampStatusVerify (verifyO : String → String → Except ErrorKind VerificationResponse)
    (now : Int) (st : DbState) (path : String) (a : ArtifactRow) :
    Option StampStatus × DbState × Bool :=
  match get_manifest_by_path st path with
  | none => (none, st, false)
  | some m =>
      match m.events.getLast? with
      | none => (none, st, false)
      | some latest =>
          let event_index := m.events.length - 1
          let st1 := update_last_check_at st a.artifact_id now
          match verifyO latest.ots_proof_b64 latest.artifact_sha256_hex with
          | Except.ok resp =>
              let st2 :=
                match resp.upgraded_ots_b64 with
                | some b64 =>
                    match resp.results.head? with
                    | some r =>
                        update_ots_proof_and_verification st1 a.artifact_id event_index
                          b64 r.chain (r.timestamp : Int) r.height now
                    | none => update_ots_proof st1 a.artifact_id event_index b64
                | none =>
                    match resp.results.head? with
                    | some r =>
                        update_verification_result st1 a.artifact_id r.chain
                          (r.timestamp : Int) r.height now
                    | none => st1
              (some ⟨true,
                some (resp.results.map (fun r => (r.chain, (r.timestamp : Int), r.height))),
                none, some a.sha256_hex⟩, st2, true)
          | Except.error _ =>
              (some ⟨false, none, none, some a.sha256_hex⟩, st1, true)

/-- `compute_stamp_status`: cached triple → answer directly; else throttle
on `last_check_at` with a 5-minute (300 s) window → pending with no error;
else verify (`stampStatusVerify`). -/
def compute_stamp_status (verifyO : String → String → Except ErrorKind VerificationResponse)
    (now : Int) (st : DbState) (path : String) : Option StampStatus × DbState × Bool :=
  match get_artifact_by_path st path with
  | none => (none, st, false)
  | some a =>
      if a.verified_chain.isSome && a.verified_timestamp.isSome
          && a.verified_height.isSome then
        (some ⟨true,
          some [(a.verified_chain.getD "", a.verified_timestamp.getD 0,
                 a.verified_height.getD 0)],
          none, some a.sha256_hex⟩, st, false)
      else
        match a.last_check_at with
        | some t =>
            if now - t < 300 then
              (some ⟨false, none, none, some a.sha256_hex⟩, st, false)
            else stampStatusVerify verifyO now st path a
        | none => stampStatusVerify verifyO now st path a

/-- C8: with no cached verification triple, a call strictly inside the
5-minute throttle window returns the pending status (success false, no
results, no error) and leaves the store untouched with no network use; and
whenever the verification path does run for an artifact carrying a
`last_check_at`, the call was at or after the 5-minute boundary. -/
theorem compute_stamp_status_throttle
    (verifyO : String → String → Except ErrorKind VerificationResponse)
    (now : Int) (st : DbState) (path : String) :
    (∀ a t, get_artifact_by_path st path = some a →
      (a.verified_chain.isSome && a.verified_timestamp.isSome
        && a.verified_height.isSome) = false →
      a.last_check_at = some t → now - t < 300 →
      compute_stamp_status verifyO now st path
        = (some ⟨false, none, none, some a.sha256_hex⟩, st, false))
    ∧ (∀ a t res st', get_artifact_by_path st path = some a →
        a.last_check_at = some t →
        compute_stamp_status verifyO now st path = (res, st', true) →
        300 ≤ now - t) := by
  constructor
  · intro a t ha hnc ht hlt
    simp [compute_stamp_status, ha, hnc, ht, hlt]
  · intro a t res st' ha ht hnet
    by_cases hc : (a.verified_chain.isSome && a.verified_timestamp.isSome
        && a.verified_height.isSome) = true
    · simp [compute_stamp_status, ha, hc] at hnet
    · by_cases hlt : now - t < 300
      · simp [compute_stamp_status, ha, eq_false_of_ne_true hc, ht, hlt] at hnet
      · omega

/-- Witness for C8: a store with one unverified artifact last checked at
`t = 100`; at `now = 200` the call is throttled to pending with no state
change, and at `now = 1000` the verification path runs, with
`300 ≤ 1000 − 100`. -/
theorem compute_stamp_status_throttle_witness :
    compute_stamp_status (fun _ _ => Except.error .unverified) 200
      ⟨[⟨1, "a.txt", "abc123", "t0", 3, none, none, none, some 100⟩],
       [⟨1, 1, 0, .mint, "abc123", none, "t0", "h0", "ots0", none, none, none, none⟩],
       [], [], [], []⟩ "a.txt"
      = (some ⟨false, none, none, some "abc123"⟩,
         ⟨[⟨1, "a.txt", "abc123", "t0", 3, none, none, none, some 100⟩],
          [⟨1, 1, 0, .mint, "abc123", none, "t0", "h0", "ots0", none, none, none, none⟩],
          [], [], [], []⟩, false)
    ∧ (300 : Int) ≤ 1000 - 100 :=
  ⟨(compute_stamp_status_throttle (fun _ _ => Except.error .unverified) 200
      ⟨[⟨1, "a.txt", "abc123", "t0", 3, none, none, none, some 100⟩],
       [⟨1, 1, 0, .mint, "abc123", none, "t0", "h0", "ots0", none, none, none, none⟩],
       [], [], [], []⟩ "a.txt").1
      ⟨1, "a.txt", "abc123", "t0", 3, none, none, none, some 100⟩ 100
      (by decide) (by decide) (by decide) (by decide),
   (compute_stamp_status_throttle (fun _ _ => Except.error .unverified) 1000
      ⟨[⟨1, "a.txt", "abc123", "t0", 3, none, none, none, some 100⟩],
       [⟨1, 1, 0, .mint, "abc123", none, "t0", "h0", "ots0", none, none, none, none⟩],
       [], [], [], []⟩ "a.txt").2
      ⟨1, "a.txt", "abc123", "t0", 3, none, none, none, some 100⟩ 100
      (some ⟨false, none, none, some "abc123"⟩)
      ⟨[⟨1, "a.txt", "abc123", "t0", 3, none, none, none, some 1000⟩],
       [⟨1, 1, 0, .mint, "abc123", none, "t0", "h0", "ots0", none, none, none, none⟩],
       [], [], [], []⟩
      (by decide) (by decide) (by decide)⟩

/- ### Share handlers (`provenance_handlers.rs`:
`handle_shared_file_access`, `handle_delete_share`,
`handle_distribution_chain`). Filesystem existence and reads, and
`verify_share_signature`, are oracles. -/

/-- The observable outcome of `GET /share/<id>`. -/
inductive ShareAccessOutcome where
  | notFound
  | badRequest (msg : String)
  | err (e : ErrorKind)
  | ok (share_id owner_pubkey signature file_sha256 : String) (body : List Nat)
deriving Repr, DecidableEq

/-- `verify_share_signature` oracle: file hash, share id, created-at,
signature, owner pubkey. -/
def ShareSigVerifier : Type :=
  String → String → String → String → String → Except ErrorKind Bool

/-- `handle_shared_file_access`: share by id (missing or inactive → 404),
file must exist on disk (→ 404), then signature verification (invalid →
400), then record the download and serve the file with the share
headers. -/
def handle_shared_file_access (fsExists : String → Bool)
    (fsRead : String → Option (List Nat)) (vs : ShareSigVerifier)
    (st : DbState) (share_id : String) : ShareAccessOutcome × DbState :=
  match get_share st share_id with
  | none => (.notFound, st)
  | some s =>
      if !s.is_active then (.notFound, st)
      else if !(fsExists s.file_path) then (.notFound, st)
      else
        match vs s.file_sha256_hex share_id s.created_at s.share_signature_hex
            s.owner_pubkey_hex with
        | Except.error e => (.err e, st)
        | Except.ok false => (.badRequest "Invalid share signature", st)
        | Except.ok true =>
            let st1 := record_share_download st share_id none none none
            match fsRead s.file_path with
            | none => (.err .io, st1)
            | some data =>
                (.ok share_id s.owner_pubkey_hex s.share_signature_hex
                  s.file_sha256_hex data, st1)

/-- The observable outcome of `DELETE <file>?share=<id>`. -/
inductive DeleteShareOutcome where
  | notFound
  | forbidden
  | ok
deriving Repr, DecidableEq

/-- `handle_delete_share`: share by id (missing → 404); a non-owning user
is rejected with 403; otherwise deactivate. -/
def handle_delete_share (st : DbState) (share_id : String) (user : Option String) :
    DeleteShareOutcome × DbState :=
  match get_share st share_id with
  | none => (.notFound, st)
  | some s =>
      match s.shared_by, user with
      | some sb, some u =>
          if sb ≠ u then (.forbidden, st)
          else (.ok, deactivate_share st share_id)
      | _, _ => (.ok, deactivate_share st share_id)

/-- The observable outcome of `GET /share/<id>/chain`. -/
inductive ChainOutcome where
  | notFound
  | ok (share_id : String) (downloads : List DownloadRecord)
deriving Repr, DecidableEq

/-- `handle_distribution_chain`: 404 when the share does not exist at all;
otherwise the recorded downloads (an inactive share still answers). -/
def handle_distribution_chain (st : DbState) (share_id : String) : ChainOutcome :=
  match get_share st share_id with
  | none => .notFound
  | some _ => .ok share_id (get_distribution_chain st share_id)

/-- Deactivation only rewrites the matching share row's active bit, so a
later lookup sees the same row with `is_active := false`. -/
theorem get_share_deactivate (st : DbState) (sid : String) :
    get_share (deactivate_share st sid) sid
      = (get_share st sid).map (fun s => { s with is_active := false }) := by
  simp only [get_share, deactivate_share]
  induction st.shares with
  | nil => rfl
  | cons x xs ih =>
      by_cases hx : x.share_id = sid
      · simp [List.find?_cons, hx]
      · have hb : (x.share_id == sid) = false := by simpa using hx
        rw [List.map_cons, if_neg (by simp [hb]), List.find?_cons, List.find?_cons, hb]
        exact ih

/-- C9: after the owning user deletes a share, only that share's active
flag changed (artifacts, events, actors, signatures, downloads, and the
other share fields are untouched); `GET /share/<id>` then resolves to 404
without touching the store, while `GET /share/<id>/chain` still returns
exactly the download records from before the deletion. -/
theorem delete_share_flips_only_active (st : DbState) (sid u : String) (s : ShareRow)
    (hs : get_share st sid = some s) (howner : s.shared_by = some u) :
    (handle_delete_share st sid (some u)).1 = .ok
    ∧ (handle_delete_share st sid (some u)).2.shares
        = st.shares.map (fun x => if x.share_id == sid then { x with is_active := false } else x)
    ∧ (handle_delete_share st sid (some u)).2.artifacts = st.artifacts
    ∧ (handle_delete_share st sid (some u)).2.events = st.events
    ∧ (handle_delete_share st sid (some u)).2.event_actors = st.event_actors
    ∧ (handle_delete_share st sid (some u)).2.event_signatures = st.event_signatures
    ∧ (handle_delete_share st sid (some u)).2.downloads = st.downloads
    ∧ (∀ (fsExists : String → Bool) (fsRead : String → Option (List Nat))
        (vs : ShareSigVerifier),
        handle_shared_file_access fsExists fsRead vs
            (handle_delete_share st sid (some u)).2 sid
          = (.notFound, (handle_delete_share st sid (some u)).2))
    ∧ handle_distribution_chain (handle_delete_share st sid (some u)).2 sid
        = .ok sid (get_distribution_chain st sid) := by
  have hdel : handle_delete_share st sid (some u) = (.ok, deactivate_share st sid) := by
    simp [handle_delete_share, hs, howner]
  refine ⟨by rw [hdel], by rw [hdel]; rfl, by rw [hdel]; rfl, by rw [hdel]; rfl,
    by rw [hdel]; rfl, by rw [hdel]; rfl, by rw [hdel]; rfl, ?_, ?_⟩
  · intro fsExists fsRead vs
    rw [hdel]
    simp [handle_shared_file_access, get_share_deactivate, hs]
  · rw [hdel]
    simp [handle_distribution_chain, get_share_deactivate, hs]
    rfl

/-- Witness for C9: one active share owned by `alice` with two recorded
downloads; after her delete, access is 404 and the chain still lists both
downloads. -/
theorem delete_share_flips_only_active_witness :
    (handle_delete_share
      ⟨[], [], [], [],
       [⟨"sid1", "a.txt", "abc123", "t0", some "alice", "02aa", "3045", true⟩],
       [⟨"sid1", none, none, none⟩, ⟨"sid1", some "1.2.3.4", none, none⟩]⟩
      "sid1" (some "alice")).1 = .ok
    ∧ handle_distribution_chain
        (handle_delete_share
          ⟨[], [], [], [],
           [⟨"sid1", "a.txt", "abc123", "t0", some "alice", "02aa", "3045", true⟩],
           [⟨"sid1", none, none, none⟩, ⟨"sid1", some "1.2.3.4", none, none⟩]⟩
          "sid1" (some "alice")).2 "sid1"
      = .ok "sid1" [⟨"sid1", none, none, none⟩, ⟨"sid1", some "1.2.3.4", none, none⟩] :=
  ⟨(delete_share_flips_only_active
      ⟨[], [], [], [],
       [⟨"sid1", "a.txt", "abc123", "t0", some "alice", "02aa", "3045", true⟩],
       [⟨"sid1", none, none, none⟩, ⟨"sid1", some "1.2.3.4", none, none⟩]⟩
      "sid1" "alice"
      ⟨"sid1", "a.txt", "abc123", "t0", some "alice", "02aa", "3045", true⟩
      (by decide) rfl).1,
   ((delete_share_flips_only_active
      ⟨[], [], [], [],
       [⟨"sid1", "a.txt", "abc123", "t0", some "alice", "02aa", "3045", true⟩],
       [⟨"sid1", none, none, none⟩, ⟨"sid1", some "1.2.3.4", none, none⟩]⟩
      "sid1" "alice"
      ⟨"sid1", "a.txt", "abc123", "t0", some "alice", "02aa", "3045", true⟩
      (by decide) rfl).2.2.2.2.2.2.2.2).trans (by decide)⟩

/-- C10: for an existing, active share whose target file is gone from
disk, `GET /share/<id>` is 404, the store is untouched (in particular no
download record is appended), and the outcome is the same whatever the
signature verifier says — the 404 happens before signature
verification. -/
theorem shared_access_missing_file (st : DbState) (sid : String) (s : ShareRow)
    (fsExists : String → Bool) (fsRead : String → Option (List Nat))
    (vs vs2 : ShareSigVerifier)
    (hs : get_share st sid = some s) (hact : s.is_active = true)
    (hfe : fsExists s.file_path = false) :
    handle_shared_file_access fsExists fsRead vs st sid = (.notFound, st)
    ∧ handle_shared_file_access fsExists fsRead vs st sid
        = handle_shared_file_access fsExists fsRead vs2 st sid := by
  have h1 : ∀ vsx : ShareSigVerifier,
      handle_shared_file_access fsExists fsRead vsx st sid = (.notFound, st) := by
    intro vsx
    simp [handle_shared_file_access, hs, hact, hfe]
  exact ⟨h1 vs, (h1 vs).trans (h1 vs2).symm⟩

/-- Witness for C10: an active share whose file `gone.txt` does not exist
on a filesystem that has no files; the rejecting and accepting verifiers
give the same 404 with no state change. -/
theorem shared_access_missing_file_witness :
    handle_shared_file_access (fun _ => false) (fun _ => none)
      (fun _ _ _ _ _ => Except.ok true)
      ⟨[], [], [], [],
       [⟨"sid1", "gone.txt", "abc123", "t0", none, "02aa", "3045", true⟩], []⟩
      "sid1"
      = (.notFound,
         ⟨[], [], [], [],
          [⟨"sid1", "gone.txt", "abc123", "t0", none, "02aa", "3045", true⟩], []⟩) :=
  (shared_access_missing_file
      ⟨[], [], [], [],
       [⟨"sid1", "gone.txt", "abc123", "t0", none, "02aa", "3045", true⟩], []⟩
      "sid1" ⟨"sid1", "gone.txt", "abc123", "t0", none, "02aa", "3045", true⟩
      (fun _ => false) (fun _ => none)
      (fun _ _ _ _ _ => Except.ok true) (fun _ _ _ _ _ => Except.ok false)
      (by decide) rfl rfl).1

/- ### Mint (`handlers.rs`: `create_mint_event`). File reads, signing and
OTS creation are oracles; the post-insert `verify_event` self-check in the
Rust code only logs and is omitted. -/

/-- The server's static signing identity (`provenance.rs`). -/
def SERVER_PRIVATE_KEY_HEX : String :=
  "e3b0c44298fc1c149afbf4c8996fb92427ae41e4649b934ca495991b7852b855"

/-- The server's static public key (`provenance.rs`). -/
def SERVER_PUBLIC_KEY_HEX : String :=
  "02506bc1dc099358e5137292f4efdd57e400f29ba5132aa5d12b18dac1c1f6aaba"

/-- The standard base64 alphabet. -/
def base64Chars : List Char :=
  "ABCDEFGHIJKLMNOPQRSTUVWXYZabcdefghijklmnopqrstuvwxyz0123456789+/".data

/-- The base64 character of a 6-bit value. -/
def base64Char (n : Nat) : Char := base64Chars.getD n 'A'

/-- Standard base64 with padding, three input bytes at a time. -/
def base64Body : List Nat → List Char
  | b0 :: b1 :: b2 :: rest =>
      [base64Char (b0 >>> 2), base64Char (((b0 &&& 3) <<< 4) ||| (b1 >>> 4)),
       base64Char (((b1 &&& 15) <<< 2) ||| (b2 >>> 6)), base64Char (b2 &&& 63)]
        ++ base64Body rest
  | [b0, b1] =>
      [base64Char (b0 >>> 2), base64Char (((b0 &&& 3) <<< 4) ||| (b1 >>> 4)),
       base64Char ((b1 &&& 15) <<< 2), '=']
  | [b0] =>
      [base64Char (b0 >>> 2), base64Char ((b0 &&& 3) <<< 4), '=', '=']
  | [] => []

/-- `base64::engine::general_purpose::STANDARD.encode`. -/
def base64Encode (bs : List Nat) : String := String.mk (base64Body bs)

/-- Split characters on a separator, keeping empty segments. -/
def splitOnChar (c : Char) : List Char → List (List Char)
  | [] => [[]]
  | x :: xs =>
      let r := splitOnChar c xs
      if x = c then [] :: r
      else
        match r with
        | [] => [[x]]
        | y :: ys => (x :: y) :: ys

/-- `Path::file_name` for ordinary paths: the last `/`-separated
component, none when it is empty. -/
def fileName (p : String) : Option String :=
  match (splitOnChar '/' p.data).getLast? with
  | some [] => none
  | some cs => some (String.mk cs)
  | none => none

/-- `MintEventResponse` of `path_item.rs`. -/
structure MintEventResponse where
  filename : String
  sha256 : String
  ots_base64 : String
  event_hash : String
  issued_at : String
  stamp_status : Option StampStatus
deriving Repr, DecidableEq

/-- `create_mint_event`: hash the file; upsert the artifact (keyed by the
file name, as the code passes `file_name`); if the artifact already has
events, answer from the existing first event (plus the freshly computed
stamp status); otherwise build, sign and insert the mint event at index 0
with the server identity, attaching the created OTS proof or the
placeholder. `fs` is `tokio::fs::read`, `signO` is `sign_event_hash`,
`otsO` is `create_timestamp` (`none` for its error fallback). A manifest
missing after the index check, or the `events[0]` access on an empty
manifest (a Rust panic), are modelled as errors. -/
def create_mint_event (fs : String → Option (List Nat))
    (verifyO : String → String → Except ErrorKind VerificationResponse)
    (signO : String → String → Except ErrorKind String)
    (otsO : List Nat → Option (List Nat)) (now : Int) (nowStr : String)
    (st : DbState) (path : String) : Except ErrorKind (MintEventResponse × DbState) :=
  match fs path with
  | none => Except.error .io
  | some file_data =>
      let sha256_hex := hexEncode (sha256 file_data)
      match fileName path with
      | none => Except.error .malformed
      | some file_name =>
          let up := upsert_artifact st file_name sha256_hex file_data.length nowStr
          let next_index := get_next_event_index up.2 up.1
          if next_index > 0 then
            match get_manifest up.2 sha256_hex with
            | none => Except.error .notFound
            | some m =>
                match m.events.head? with
                | none => Except.error .io
                | some first_event =>
                    let stres := compute_stamp_status verifyO now up.2 path
                    Except.ok
                      (⟨file_name, sha256_hex, first_event.ots_proof_b64,
                        first_event.event_hash_hex, first_event.issued_at, stres.1⟩,
                       stres.2.1)
          else
            let actors : Actors := ⟨some SERVER_PUBLIC_KEY_HEX, none, none⟩
            let event_hash_hex := compute_event_hash 0 .mint sha256_hex none actors nowStr
            match signO event_hash_hex SERVER_PRIVATE_KEY_HEX with
            | Except.error e => Except.error e
            | Except.ok creator_signature =>
                let signatures : Signatures := ⟨some creator_signature, none, none⟩
                let ots_bytes :=
                  match otsO (sha256 file_data) with
                  | some bytes => bytes
                  | none => strBytes "PLACEHOLDER_OTS_PROOF"
                let ots_proof_b64 := base64Encode ots_bytes
                match insert_event up.2
                    ⟨up.1, 0, .mint, sha256_hex, none, nowStr, event_hash_hex,
                     ots_proof_b64, actors, signatures⟩ with
                | Except.error e => Except.error e
                | Except.ok r =>
                    Except.ok
                      (⟨file_name, sha256_hex, ots_proof_b64, event_hash_hex, nowStr,
                        some ⟨false, none, none, some sha256_hex⟩⟩, r.2)

/-- The `(artifact, index)` key of an event row. -/
def eventKey (e : EventRow) : Nat × Nat := (e.artifact_id, e.index_num)

theorem update_ots_proof_keys (st : DbState) (a i : Nat) (b : String) :
    (update_ots_proof st a i b).events.map eventKey = st.events.map eventKey := by
  unfold update_ots_proof
  rw [List.map_map]
  apply List.map_congr_left
  intro e _
  by_cases h : (e.artifact_id == a && e.index_num == i) = true <;>
    simp [eventKey, Function.comp, h]

theorem stampStatusVerify_events_keys
    (verifyO : String → String → Except ErrorKind VerificationResponse)
    (now : Int) (st : DbState) (path : String) (a : ArtifactRow) :
    ((stampStatusVerify verifyO now st path a).2.1).events.map eventKey
      = st.events.map eventKey := by
  unfold stampStatusVerify
  split
  · rfl
  · split
    · rfl
    · dsimp only
      split
      · split
        · split
          · exact update_ots_proof_keys _ _ _ _
          · exact update_ots_proof_keys _ _ _ _
        · split
          · rfl
          · rfl
      · rfl

/-- The stamp-status cache never inserts or deletes event rows: the
`(artifact, index)` keys of the store's events are unchanged. -/
theorem compute_stamp_status_events_keys
    (verifyO : String → String → Except ErrorKind VerificationResponse)
    (now : Int) (st : DbState) (path : String) :
    ((compute_stamp_status verifyO now st path).2.1).events.map eventKey
      = st.events.map eventKey := by
  unfold compute_stamp_status
  split
  · rfl
  · split
    · rfl
    · split
      · split
        · rfl
        · exact stampStatusVerify_events_keys _ _ _ _ _
      · exact stampStatusVerify_events_keys _ _ _ _ _

theorem upsert_artifact_events (st : DbState) (f s : String) (n : Nat) (t : String) :
    (upsert_artifact st f s n t).2.events = st.events := by
  unfold upsert_artifact
  split <;> rfl

/-- C7 counterexample: an artifact whose single mint event carries
`artifact_sha256_hex = "00"`, while the file on disk now holds the byte
`0x78`. The second mint call keeps the one event at index 0 and returns
its OTS proof, event hash and issued-at — but the `sha256` of the response
is the freshly computed hash of the current content, not the mint event's
`"00"`, so the call does not return "the existing mint event's sha256". -/
theorem create_mint_event_returns_current_sha :
    create_mint_event (fun p => if p = "a.txt" then some [120] else none)
      (fun _ _ => Except.error .unverified) (fun _ _ => Except.ok "sig")
      (fun _ => none) 0 "t1"
      ⟨[⟨1, "a.txt", "00", "t0", 1, none, none, none, none⟩],
       [⟨1, 1, 0, .mint, "00", none, "t0", "h0", "ots0", none, none, none, none⟩],
       [], [], [], []⟩ "a.txt"
      = Except.ok
          (⟨"a.txt", hexEncode (sha256 [120]), "ots0", "h0", "t0",
            some ⟨false, none, none, some (hexEncode (sha256 [120]))⟩⟩,
           ⟨[⟨1, "a.txt", hexEncode (sha256 [120]), "t0", 1, none, none, none, some 0⟩],
            [⟨1, 1, 0, .mint, "00", none, "t0", "h0", "ots0", none, none, none, none⟩],
            [], [], [], []⟩)
    ∧ hexEncode (sha256 [120]) ≠ "00" := by
  constructor
  · rfl
  · decide

/-- C7 amended: when the artifact for the file already has at least one
event, `create_mint_event` inserts no new event — the store's `(artifact,
index)` event keys are unchanged, so the artifact keeps its single event
at index 0 — and answers with the existing first event's OTS proof, event
hash and issued-at; the response's `filename` and `sha256` are the file's
current name and freshly computed hash (equal to the mint event's exactly
when the content is unchanged). -/
theorem create_mint_event_idempotent
    (fs : String → Option (List Nat))
    (verifyO : String → String → Except ErrorKind VerificationResponse)
    (signO : String → String → Except ErrorKind String)
    (otsO : List Nat → Option (List Nat)) (now : Int) (nowStr : String)
    (st : DbState) (path file_name : String) (file_data : List Nat)
    (m : Manifest) (e0 : EventRow)
    (hfs : fs path = some file_data)
    (hfn : fileName path = some file_name)
    (hidx : 0 < get_next_event_index
      (upsert_artifact st file_name (hexEncode (sha256 file_data)) file_data.length nowStr).2
      (upsert_artifact st file_name (hexEncode (sha256 file_data)) file_data.length nowStr).1)
    (hm : get_manifest
      (upsert_artifact st file_name (hexEncode (sha256 file_data)) file_data.length nowStr).2
      (hexEncode (sha256 file_data)) = some m)
    (he : m.events.head? = some e0) :
    create_mint_event fs verifyO signO otsO now nowStr st path
      = Except.ok
          (⟨file_name, hexEncode (sha256 file_data), e0.ots_proof_b64, e0.event_hash_hex,
            e0.issued_at,
            (compute_stamp_status verifyO now
              (upsert_artifact st file_name (hexEncode (sha256 file_data)) file_data.length
                nowStr).2 path).1⟩,
           (compute_stamp_status verifyO now
              (upsert_artifact st file_name (hexEncode (sha256 file_data)) file_data.length
                nowStr).2 path).2.1)
    ∧ (∀ resp st', create_mint_event fs verifyO signO otsO now nowStr st path
        = Except.ok (resp, st') → st'.events.map eventKey = st.events.map eventKey) := by
  have hmain : create_mint_event fs verifyO signO otsO now nowStr st path
      = Except.ok
          (⟨file_name, hexEncode (sha256 file_data), e0.ots_proof_b64, e0.event_hash_hex,
            e0.issued_at,
            (compute_stamp_status verifyO now
              (upsert_artifact st file_name (hexEncode (sha256 file_data)) file_data.length
                nowStr).2 path).1⟩,
           (compute_stamp_status verifyO now
              (upsert_artifact st file_name (hexEncode (sha256 file_data)) file_data.length
                nowStr).2 path).2.1) := by
    unfold create_mint_event
    simp only [hfs, hfn]
    rw [if_pos hidx]
    simp only [hm, he]
  refine ⟨hmain, ?_⟩
  intro resp st' h
  rw [hmain] at h
  simp only [Except.ok.injEq, Prod.mk.injEq] at h
  rw [← h.2]
  rw [compute_stamp_status_events_keys, upsert_artifact_events]

/-- Witness for the C7 amended theorem, at the counterexample's store:
the second mint call for `a.txt` leaves the event keys untouched and
answers from the stored mint event. -/
theorem create_mint_event_idempotent_witness :
    create_mint_event (fun p => if p = "a.txt" then some [120] else none)
      (fun _ _ => Except.error .unverified) (fun _ _ => Except.ok "sig")
      (fun _ => none) 0 "t1"
      ⟨[⟨1, "a.txt", "00", "t0", 1, none, none, none, none⟩],
       [⟨1, 1, 0, .mint, "00", none, "t0", "h0", "ots0", none, none, none, none⟩],
       [], [], [], []⟩ "a.txt"
      = Except.ok
          (⟨"a.txt", hexEncode (sha256 [120]), "ots0", "h0", "t0",
            (compute_stamp_status (fun _ _ => Except.error .unverified) 0
              (upsert_artifact
                ⟨[⟨1, "a.txt", "00", "t0", 1, none, none, none, none⟩],
                 [⟨1, 1, 0, .mint, "00", none, "t0", "h0", "ots0", none, none, none, none⟩],
                 [], [], [], []⟩ "a.txt" (hexEncode (sha256 [120])) 1 "t1").2 "a.txt").1⟩,
           (compute_stamp_status (fun _ _ => Except.error .unverified) 0
              (upsert_artifact
                ⟨[⟨1, "a.txt", "00", "t0", 1, none, none, none, none⟩],
                 [⟨1, 1, 0, .mint, "00", none, "t0", "h0", "ots0", none, none, none, none⟩],
                 [], [], [], []⟩ "a.txt" (hexEncode (sha256 [120])) 1 "t1").2 "a.txt").2.1) :=
  (create_mint_event_idempotent (fun p => if p = "a.txt" then some [120] else none)
      (fun _ _ => Except.error .unverified) (fun _ _ => Except.ok "sig")
      (fun _ => none) 0 "t1"
      ⟨[⟨1, "a.txt", "00", "t0", 1, none, none, none, none⟩],
       [⟨1, 1, 0, .mint, "00", none, "t0", "h0", "ots0", none, none, none, none⟩],
       [], [], [], []⟩ "a.txt" "a.txt" [120]
      ⟨⟨1, "a.txt", hexEncode (sha256 [120]), "t0", 1, none, none, none, none⟩,
       [⟨1, 1, 0, .mint, "00", none, "t0", "h0", "ots0", none, none, none, none⟩]⟩
      ⟨1, 1, 0, .mint, "00", none, "t0", "h0", "ots0", none, none, none, none⟩
      rfl (by decide) (by decide) rfl rfl).1

end NodeDrive
